import Mathlib

/-!
# NexAura Guides backend — sharing and access-control model

A shallow embedding of the guide-sharing backend.  The repository slice
contains the pydantic schemas (`app/schemas.py`) and the sharing test-suite
(`tests/test_guide_sharing.py`); the route / store / policy code they exercise
is part of the repository but not in the slice, so those operations are
modelled from the specification (each such definition's doc comment starts
with `Modelled from the spec:`).  Schema-level definitions are translated
directly from `app/schemas.py`.

Numeric payload values (floats in the schemas) are embedded as `Rat`: none of
the verified properties performs arithmetic on them, they only pass through.
-/

namespace NexAura

/-- An authenticated user: unique numeric id and unique email
(spec §3 "User: identity with unique email"). -/
structure User where
  id : Nat
  email : String
deriving Repr, DecidableEq

/-- A stored step of a guide, ordered by `step_number`
(spec §3 "Step"; response shape `Step` in `app/schemas.py` lines 38-48:
`instruction` is a required string there, the other payload fields are
nullable). -/
structure StoredStep where
  id : Nat
  step_number : Nat
  instruction : String
  selector : Option String := none
  screenshot_path : Option String := none
  highlight_x : Option Rat := none
  highlight_y : Option Rat := none
  highlight_width : Option Rat := none
  highlight_height : Option Rat := none
deriving Repr, DecidableEq

/-- A stored guide record (spec §3 "Guide"): unique id, owner `user_id`,
`shortcut` globally unique, `is_public` flag, `shared_emails` access list,
optional single active `share_token`, and its ordered steps. -/
structure Guide where
  id : Nat
  user_id : Nat
  name : String
  shortcut : String
  description : Option String := none
  is_public : Bool := false
  shared_emails : List String := []
  share_token : Option String := none
  steps : List StoredStep := []
deriving Repr, DecidableEq

/-- The persistent guide store: the list of guide records. -/
abbrev Store := List Guide

/-- The actions of the access-policy engine (spec §4.1). -/
inductive Action where
  | read
  | update_content
  | update_sharing
  | exportPdf
  | delete
deriving Repr, DecidableEq

/-- Modelled from the spec: §4.1 Access Policy Engine, the pure decision
function `authorize(user, guide, action)`.  Rules in order, first match wins:
owner → allow all; read allowed when public or shared; update_content allowed
for shared users; update_sharing and export are owner-only; default deny.
(The engine itself lives in the application code absent from the slice.) -/
def authorize (u : User) (g : Guide) (a : Action) : Bool :=
  if u.id = g.user_id then true
  else
    match a with
    | .read => g.is_public || g.shared_emails.contains u.email
    | .update_content => g.shared_emails.contains u.email
    | .update_sharing => false
    | .exportPdf => false
    | .delete => false

/-- Look a guide up by id in the store. -/
def findGuide (store : Store) (gid : Nat) : Option Guide :=
  store.find? (fun g => g.id == gid)

/-- Replace, in the store, every guide whose id equals `g.id` by `g`
(with unique ids: replace the one record). -/
def setGuide (store : Store) (g : Guide) : Store :=
  store.map (fun h => if h.id == g.id then g else h)

/-- Modelled from the spec: §4.1 listing — all guides the user owns, union
all guides where the user's email is in `shared_emails`, union all public
guides. -/
def list_for_user (store : Store) (u : User) : List Guide :=
  store.filter (fun g =>
    g.user_id == u.id || g.shared_emails.contains u.email || g.is_public)

/-- Response of a single-guide read/update endpoint: the guide payload on
success (HTTP 200), a forbidden signal (403) or a not-found signal (404). -/
inductive GuideResp where
  | ok (g : Guide)
  | forbidden
  | notFound
deriving Repr, DecidableEq

/-- The HTTP status code a `GuideResp` is rendered as. -/
def GuideResp.status : GuideResp → Nat
  | .ok _ => 200
  | .forbidden => 403
  | .notFound => 404

/-- Modelled from the spec: §4.1 lookup-by-shortcut applies the read
authorization; an unauthorized and a nonexistent shortcut both surface the
same not-found signal (existence must not leak through shortcut search). -/
def get_by_shortcut (store : Store) (u : User) (sc : String) : GuideResp :=
  match store.find? (fun g => g.shortcut == sc) with
  | none => .notFound
  | some g => if authorize u g .read then .ok g else .notFound

/-- Modelled from the spec: §4.1 rule 5 / §6 — export is owner-only; the
caller addressed the guide by id, so denial for an existing guide is a
forbidden signal, not a not-found one. -/
def export_guide (store : Store) (u : User) (gid : Nat) : GuideResp :=
  match findGuide store gid with
  | none => .notFound
  | some g => if authorize u g .exportPdf then .ok g else .forbidden

/-- A partial-update request body: only the fields present are applied
(spec §4.3 "applies only fields present in the request"). -/
structure GuideUpdate where
  name : Option String := none
  shortcut : Option String := none
  description : Option String := none
  is_public : Option Bool := none
  shared_emails : Option (List String) := none
deriving Repr, DecidableEq

/-- Whether the update request touches a sharing field
(`shared_emails` or `is_public`). -/
def GuideUpdate.touchesSharing (upd : GuideUpdate) : Bool :=
  upd.is_public.isSome || upd.shared_emails.isSome

/-- Apply the present fields of a partial update to a guide record. -/
def applyUpdate (g : Guide) (upd : GuideUpdate) : Guide :=
  { g with
    name := upd.name.getD g.name
    shortcut := upd.shortcut.getD g.shortcut
    description := match upd.description with
      | some d => some d
      | none => g.description
    is_public := upd.is_public.getD g.is_public
    shared_emails := upd.shared_emails.getD g.shared_emails }

/-- Modelled from the spec: §4.3 `update(guideId, partialFields)` guarded by
§4.1 — sharing fields require `update_sharing` (owner-only), and a combined
request from a non-owner touching sharing fields fails whole (nothing is
partially applied); content-only updates require `update_content`.
Returns the new store and the response. -/
def update_guide (store : Store) (u : User) (gid : Nat) (upd : GuideUpdate) :
    Store × GuideResp :=
  match findGuide store gid with
  | none => (store, .notFound)
  | some g =>
    if upd.touchesSharing then
      if authorize u g .update_sharing then
        let g2 := applyUpdate g upd
        (setGuide store g2, .ok g2)
      else (store, .forbidden)
    else
      if authorize u g .update_content then
        let g2 := applyUpdate g upd
        (setGuide store g2, .ok g2)
      else (store, .forbidden)

/-- Response of the share-token issuance endpoint: the token string on
success (200), else forbidden (403) or not-found (404). -/
inductive TokenResp where
  | ok (token : String)
  | forbidden
  | notFound
deriving Repr, DecidableEq

/-- The HTTP status code a `TokenResp` is rendered as. -/
def TokenResp.status : TokenResp → Nat
  | .ok _ => 200
  | .forbidden => 403
  | .notFound => 404

/-- Modelled from the spec: §4.2 `issue_share_token(guide, requester)` —
requires `authorize(requester, guide, update_sharing)`; stores the freshly
generated token `tok` (generation is an opaque capability, so the token is a
parameter here) as the guide's single active `share_token`, replacing any
prior token, and returns it. -/
def issue_share_token (store : Store) (u : User) (gid : Nat) (tok : String) :
    Store × TokenResp :=
  match findGuide store gid with
  | none => (store, .notFound)
  | some g =>
    if authorize u g .update_sharing then
      (setGuide store { g with share_token := some tok }, .ok tok)
    else (store, .forbidden)

/-- Add an email to a sharing list without duplicating it (set semantics of
`shared_emails`, spec §3). -/
def addEmail (es : List String) (e : String) : List String :=
  if es.contains e then es else es ++ [e]

/-- Modelled from the spec: §4.2 `redeem_share_token(token, claimant)` —
looks up the guide whose active `share_token` equals the token; if none,
fails with not-found (the same signal for well-formed-but-unknown and
malformed tokens); on success adds the claimant's email to `shared_emails`
idempotently and returns the updated sharing state. -/
def redeem_share_token (store : Store) (u : User) (tok : String) :
    Store × GuideResp :=
  match store.find? (fun g => g.share_token == some tok) with
  | none => (store, .notFound)
  | some g =>
    let g2 := { g with shared_emails := addEmail g.shared_emails u.email }
    (setGuide store g2, .ok g2)

/-- A step of the creation payload, as the `StepCreate` schema of
`app/schemas.py` (lines 14-32) declares it: every field optional with
default `None`, the highlight acceptable both nested and as top-level
fields. -/
structure StepCreate where
  instruction : Option String := none
  selector : Option String := none
  screenshot : Option String := none
  action : Option String := none
  value : Option String := none
  highlight : Option (Option Rat × Option Rat × Option Rat × Option Rat) := none
  highlight_x : Option Rat := none
  highlight_y : Option Rat := none
  highlight_width : Option Rat := none
  highlight_height : Option Rat := none
deriving Repr, DecidableEq

/-- The guide-creation request as the API consumes it (spec §6: name,
shortcut, description, `is_public`, `shared_emails`, ordered step list).
`is_public` and `shared_emails` are read by the endpoint even though the
`GuideCreate` pydantic schema does not declare them. -/
structure GuideCreatePayload where
  name : String
  shortcut : String
  description : Option String := none
  is_public : Bool := false
  shared_emails : List String := []
  steps : List StepCreate := []
deriving Repr, DecidableEq

/-- Field names declared by the `GuideCreate` schema
(`app/schemas.py` lines 56-65, including those inherited from `GuideBase`). -/
def guideCreateFields : List String :=
  ["name", "shortcut", "description", "steps"]

/-- Field names declared by the `Guide` response schema
(`app/schemas.py` lines 67-75, including those inherited from `GuideBase`). -/
def guideRespFields : List String :=
  ["id", "name", "shortcut", "description", "steps"]

/-- Response of the create-guide endpoint: the created record (201), a
validation failure (422) or a shortcut-uniqueness conflict (409). -/
inductive CreateResp where
  | created (g : Guide)
  | invalid
  | conflict
deriving Repr, DecidableEq

/-- The HTTP status code a `CreateResp` is rendered as. -/
def CreateResp.status : CreateResp → Nat
  | .created _ => 201
  | .invalid => 422
  | .conflict => 409

/-- Turn the `i`-th step of a creation payload into a stored step; the
highlight is taken from the top-level fields, falling back to the nested
object (`instruction` has been checked present by the caller, so the default
branch of `getD` is unreachable there). -/
def buildStep (i : Nat) (s : StepCreate) : StoredStep :=
  let nested := s.highlight.getD (none, none, none, none)
  { id := i + 1
    step_number := i + 1
    instruction := s.instruction.getD ""
    selector := s.selector
    screenshot_path := s.screenshot
    highlight_x := s.highlight_x.orElse (fun _ => nested.1)
    highlight_y := s.highlight_y.orElse (fun _ => nested.2.1)
    highlight_width := s.highlight_width.orElse (fun _ => nested.2.2.1)
    highlight_height := s.highlight_height.orElse (fun _ => nested.2.2.2) }

/-- The guide record a successful creation persists: owner, payload fields
(`is_public` and `shared_emails` included), no active share token, and the
ordered steps built from the payload. -/
def buildGuide (owner : User) (p : GuideCreatePayload) (newId : Nat) : Guide :=
  { id := newId
    user_id := owner.id
    name := p.name
    shortcut := p.shortcut
    description := p.description
    is_public := p.is_public
    shared_emails := p.shared_emails
    share_token := none
    steps := (List.range p.steps.length).zipWith buildStep p.steps }

/-- Modelled from the spec: §4.3 `create(ownerId, GuideCreate)` and §6 —
persists guide plus ordered steps, applying `is_public` and `shared_emails`
from the payload; each step's `instruction` is required for API acceptance
(spec §3) though the schema marks it optional; the shortcut must be
system-wide unique (spec §3 invariant).  `newId` stands for the
store-assigned id. -/
def create_guide (store : Store) (owner : User) (p : GuideCreatePayload)
    (newId : Nat) : Store × CreateResp :=
  if p.steps.any (fun s => s.instruction.isNone) then
    (store, .invalid)
  else if store.any (fun g => g.shortcut == p.shortcut) then
    (store, .conflict)
  else
    (store ++ [buildGuide owner p newId], .created (buildGuide owner p newId))

/-!
## JSON-level schema validation

`app/schemas.py` is consumed at the wire boundary: pydantic parses a JSON
object, treating every `Optional[...] = None` field as
missing-or-null-or-typed-value, ignoring unknown keys.  The fragment below
embeds exactly the validation the `StepCreate` / `Highlight` schemas perform.
-/

/-- A JSON value (arrays are not needed by the step-level schemas). -/
inductive Json where
  | null
  | str (s : String)
  | num (q : Rat)
  | jbool (b : Bool)
  | obj (fields : List (String × Json))
deriving Repr

/-- Fetch a field of a JSON object field list (first occurrence wins). -/
def lookupField (fs : List (String × Json)) (k : String) : Option Json :=
  (fs.find? (fun p => p.1 == k)).map (fun p => p.2)

/-- Parse an `Optional[str] = None` pydantic field: missing and `null` give
`None`; a string gives the value; anything else is a validation error. -/
def parseOptStr : Option Json → Except String (Option String)
  | none => .ok none
  | some .null => .ok none
  | some (.str s) => .ok (some s)
  | some _ => .error "expected string"

/-- Parse an `Optional[float] = None` pydantic field: missing and `null`
give `None`; a number gives the value; anything else is a validation
error. -/
def parseOptNum : Option Json → Except String (Option Rat)
  | none => .ok none
  | some .null => .ok none
  | some (.num q) => .ok (some q)
  | some _ => .error "expected number"

/-- Validation of the nested `Highlight` schema (`app/schemas.py` lines
7-11): an object with four independently optional float fields, unknown keys
ignored. -/
def parseHighlight : Json → Except String (Option Rat × Option Rat × Option Rat × Option Rat)
  | .obj fs => do
    let x ← parseOptNum (lookupField fs "x")
    let y ← parseOptNum (lookupField fs "y")
    let w ← parseOptNum (lookupField fs "width")
    let h ← parseOptNum (lookupField fs "height")
    pure (x, y, w, h)
  | _ => .error "expected object"

/-- Parse an `Optional[Highlight] = None` field. -/
def parseOptHighlight : Option Json → Except String (Option (Option Rat × Option Rat × Option Rat × Option Rat))
  | none => .ok none
  | some .null => .ok none
  | some j => (parseHighlight j).map some

/-- Validation of the `StepCreate` schema (`app/schemas.py` lines 14-32):
every declared field optional with default `None`; the highlight accepted
both as a nested object and as four top-level fields; unknown keys
ignored. -/
def parseStepCreate : Json → Except String StepCreate
  | .obj fs => do
    let instruction ← parseOptStr (lookupField fs "instruction")
    let selector ← parseOptStr (lookupField fs "selector")
    let screenshot ← parseOptStr (lookupField fs "screenshot")
    let act ← parseOptStr (lookupField fs "action")
    let value ← parseOptStr (lookupField fs "value")
    let highlight ← parseOptHighlight (lookupField fs "highlight")
    let hx ← parseOptNum (lookupField fs "highlight_x")
    let hy ← parseOptNum (lookupField fs "highlight_y")
    let hw ← parseOptNum (lookupField fs "highlight_width")
    let hh ← parseOptNum (lookupField fs "highlight_height")
    pure { instruction := instruction, selector := selector,
           screenshot := screenshot, action := act, value := value,
           highlight := highlight, highlight_x := hx, highlight_y := hy,
           highlight_width := hw, highlight_height := hh }
  | _ => .error "expected object"

/-- A field list containing `k ↦ v` when the optional `v` is present and
nothing otherwise (used to build payloads with an arbitrary subset of fields
present). -/
def optField (k : String) : Option Json → List (String × Json)
  | none => []
  | some j => [(k, j)]

/-- Serialize a stored step into the `Step` response schema shape
(`app/schemas.py` lines 38-48): `instruction` is a required string, the
nullable fields render as `null` when absent. -/
def serializeStep (s : StoredStep) : Json :=
  .obj
    [ ("id", .num s.id)
    , ("step_number", .num s.step_number)
    , ("instruction", .str s.instruction)
    , ("selector", (s.selector.map Json.str).getD .null)
    , ("screenshot_path", (s.screenshot_path.map Json.str).getD .null)
    , ("highlight_x", (s.highlight_x.map Json.num).getD .null)
    , ("highlight_y", (s.highlight_y.map Json.num).getD .null)
    , ("highlight_width", (s.highlight_width.map Json.num).getD .null)
    , ("highlight_height", (s.highlight_height.map Json.num).getD .null) ]

/-- Fetch a field of a JSON object (`none` on non-objects). -/
def jsonField (j : Json) (k : String) : Option Json :=
  match j with
  | .obj fs => lookupField fs k
  | _ => none

/-!
## Concrete data for witnesses

A sample population mirroring the fixtures of `tests/test_guide_sharing.py`.
-/

/-- The owner account of the sample guides. -/
def demoOwner : User := ⟨1, "owner2@example.com"⟩

/-- The account a sample guide is shared with. -/
def demoShared : User := ⟨2, "shared2@example.com"⟩

/-- An account with no relation to the sample guides. -/
def demoOther : User := ⟨3, "other@example.com"⟩

/-- A private guide shared with `demoShared` by email. -/
def demoGuide : Guide :=
  { id := 10
    user_id := 1
    name := "Private to Shared"
    shortcut := "priv2shared"
    description := some "Private"
    shared_emails := ["shared2@example.com"] }

/-- A private guide shared with nobody. -/
def demoPrivate : Guide :=
  { id := 11
    user_id := 1
    name := "Strictly Private"
    shortcut := "strict"
    description := some "Private" }

/-- A sample store holding both demo guides. -/
def demoStore : Store := [demoGuide, demoPrivate]

/-- A private guide with an active share token. -/
def demoLinkGuide : Guide :=
  { id := 12
    user_id := 1
    name := "Link Guide"
    shortcut := "link1"
    description := some "Shareable"
    share_token := some "tokT" }

/-- A store holding only the share-link demo guide. -/
def demoLinkStore : Store := [demoLinkGuide]

/-- The account that claims the demo share link. -/
def demoClaimant : User := ⟨4, "claimant@example.com"⟩

/-- A creation payload carrying sharing fields and one complete step. -/
def demoCreatePayload : GuideCreatePayload :=
  { name := "Shared Guide"
    shortcut := "shared1"
    description := some "Shared"
    is_public := false
    shared_emails := ["shared2@example.com"]
    steps := [{ instruction := some "Step 1", selector := some "body" }] }

/-- A creation payload whose single step lacks an instruction. -/
def demoBadPayload : GuideCreatePayload :=
  { name := "Bad"
    shortcut := "bad1"
    steps := [{ selector := some "body" }] }

/-!
## Helper lemmas
-/

/-- `find?` after `setGuide`: when the store's ids are distinct and the
replacement keeps the found guide's id and still satisfies the predicate,
the replacement is found at the same spot. -/
theorem find?_setGuide {store : Store} {p : Guide → Bool} {g g2 : Guide}
    (hnd : (store.map Guide.id).Nodup)
    (hf : store.find? p = some g) (hid : g2.id = g.id) (hp : p g2 = true) :
    (setGuide store g2).find? p = some g2 := by
  induction store with
  | nil => simp [List.find?] at hf
  | cons a l ih =>
    simp only [List.map_cons, List.nodup_cons] at hnd
    by_cases ha : p a = true
    · rw [List.find?_cons_of_pos _ ha] at hf
      injection hf with hf
      subst hf
      have : (a.id == g2.id) = true := by simp [hid]
      simp only [setGuide, List.map_cons, this, if_pos rfl]
      exact List.find?_cons_of_pos _ hp
    · rw [List.find?_cons_of_neg _ (by simpa using ha)] at hf
      have hmem : g ∈ l := List.mem_of_find?_eq_some hf
      have haid : a.id ≠ g.id := by
        intro he
        exact hnd.1 (he ▸ List.mem_map_of_mem Guide.id hmem)
      have hne : (a.id == g2.id) = false := by simp [hid, haid]
      have hset : setGuide (a :: l) g2 = a :: setGuide l g2 := by
        simp only [setGuide, List.map_cons]
        rw [if_neg (by simp [hne])]
      rw [hset, List.find?_cons_of_neg _ (by simpa using ha)]
      exact ih hnd.2 hf

/-- Replacing the same guide twice is the same as replacing it once. -/
theorem setGuide_setGuide (store : Store) (g : Guide) :
    setGuide (setGuide store g) g = setGuide store g := by
  simp only [setGuide, List.map_map]
  refine List.map_congr_left ?_
  intro x _
  by_cases h : (x.id == g.id) = true <;> simp [Function.comp, h]

/-- A replacement with a matching id is a member of the updated store as
soon as the replaced guide was. -/
theorem mem_setGuide_of_mem {store : Store} {g g2 : Guide}
    (h : g ∈ store) (hid : g2.id = g.id) : g2 ∈ setGuide store g2 := by
  have := List.mem_map_of_mem (fun h => if h.id == g2.id then g2 else h) h
  simpa [setGuide, hid] using this

/-- Membership in a user's listing, characterized (spec §4.1 listing rule). -/
theorem mem_list_for_user {store : Store} {u : User} {g : Guide} :
    g ∈ list_for_user store u ↔
      g ∈ store ∧ (g.user_id = u.id ∨ u.email ∈ g.shared_emails ∨ g.is_public = true) := by
  simp [list_for_user, List.mem_filter, or_assoc]

/-- The added email is in the updated sharing list. -/
theorem mem_addEmail_self (es : List String) (e : String) : e ∈ addEmail es e := by
  by_cases h : e ∈ es <;> simp [addEmail, h]

/-- Adding an email already present leaves the list untouched. -/
theorem addEmail_of_mem {es : List String} {e : String} (h : e ∈ es) :
    addEmail es e = es := by
  simp [addEmail, h]

/-- `addEmail` never introduces a duplicate. -/
theorem addEmail_nodup {es : List String} {e : String} (h : es.Nodup) :
    (addEmail es e).Nodup := by
  by_cases hm : e ∈ es
  · simpa [addEmail_of_mem hm]
  · rw [addEmail, if_neg (by simpa using hm)]
    refine h.append (List.nodup_singleton e) ?_
    intro a ha he
    simp only [List.mem_singleton] at he
    exact hm (he ▸ ha)

/-!
## The claims
-/

/-- C1: an authenticated user whose email is in a guide's `shared_emails`
and who is not the owner can update the description alone (status 200, the
new value round-trips in the response), while their attempt to set
`shared_emails` fails with 403 and leaves the guide's sharing list
unchanged. -/
theorem C1_shared_user_update (store : Store) (u : User) (g : Guide)
    (d : String) (es : List String)
    (hfind : findGuide store g.id = some g)
    (hshared : u.email ∈ g.shared_emails)
    (hnotown : u.id ≠ g.user_id) :
    ((update_guide store u g.id { description := some d }).2.status = 200 ∧
      ∃ g2, (update_guide store u g.id { description := some d }).2 = .ok g2 ∧
        g2.description = some d) ∧
    ((update_guide store u g.id { shared_emails := some es }).2.status = 403 ∧
      (update_guide store u g.id { shared_emails := some es }).1 = store ∧
      (findGuide (update_guide store u g.id { shared_emails := some es }).1 g.id).map
          Guide.shared_emails = some g.shared_emails) := by
  have hauthc : authorize u g .update_content = true := by
    simp [authorize, hnotown, hshared]
  have hauths : authorize u g .update_sharing = false := by
    simp [authorize, hnotown]
  have h1 : update_guide store u g.id { description := some d } =
      (setGuide store (applyUpdate g { description := some d }),
        .ok (applyUpdate g { description := some d })) := by
    simp [update_guide, hfind, GuideUpdate.touchesSharing, hauthc]
  have h2 : update_guide store u g.id { shared_emails := some es } =
      (store, .forbidden) := by
    simp [update_guide, hfind, GuideUpdate.touchesSharing, hauths]
  refine ⟨⟨?_, ?_⟩, ?_, ?_, ?_⟩
  · rw [h1]; rfl
  · rw [h1]; exact ⟨_, rfl, rfl⟩
  · rw [h2]; rfl
  · rw [h2]
  · rw [h2]; simp [hfind]

/-- C1 witness: the shared (non-owner) demo user updates the description of
the demo guide (200, value round-trips) and is denied a `shared_emails`
change (403, sharing list unchanged). -/
theorem C1_shared_user_update_witness :
    ((update_guide demoStore demoShared demoGuide.id
        { description := some "Updated by shared user" }).2.status = 200 ∧
      ∃ g2, (update_guide demoStore demoShared demoGuide.id
          { description := some "Updated by shared user" }).2 = .ok g2 ∧
        g2.description = some "Updated by shared user") ∧
    ((update_guide demoStore demoShared demoGuide.id
        { shared_emails := some [] }).2.status = 403 ∧
      (update_guide demoStore demoShared demoGuide.id
        { shared_emails := some [] }).1 = demoStore ∧
      (findGuide (update_guide demoStore demoShared demoGuide.id
          { shared_emails := some [] }).1 demoGuide.id).map
          Guide.shared_emails = some demoGuide.shared_emails) :=
  C1_shared_user_update demoStore demoShared demoGuide
    "Updated by shared user" [] (by decide) (by decide) (by decide)

/-- C2: for a guide with `is_public = false` and empty `shared_emails` and a
non-owner caller, shortcut lookup yields the same not-found signal as a
nonexistent shortcut (404), while export by direct id yields forbidden
(403). -/
theorem C2_deny_signal_by_path (store : Store) (u : User) (g : Guide)
    (hsc : store.find? (fun h => h.shortcut == g.shortcut) = some g)
    (hfind : findGuide store g.id = some g)
    (hpriv : g.is_public = false)
    (hemp : g.shared_emails = [])
    (hnotown : u.id ≠ g.user_id) :
    get_by_shortcut store u g.shortcut = .notFound ∧
    (∀ sc, store.find? (fun h => h.shortcut == sc) = none →
        get_by_shortcut store u sc = .notFound) ∧
    (get_by_shortcut store u g.shortcut).status = 404 ∧
    export_guide store u g.id = .forbidden ∧
    (export_guide store u g.id).status = 403 := by
  have hread : authorize u g .read = false := by
    simp [authorize, hnotown, hpriv, hemp]
  have hexp : authorize u g .exportPdf = false := by
    simp [authorize, hnotown]
  have hs : get_by_shortcut store u g.shortcut = .notFound := by
    simp [get_by_shortcut, hsc, hread]
  have he : export_guide store u g.id = .forbidden := by
    simp [export_guide, hfind, hexp]
  refine ⟨hs, ?_, by rw [hs]; rfl, he, by rw [he]; rfl⟩
  intro sc hnone
  simp [get_by_shortcut, hnone]

/-- C2 witness: the unrelated demo user gets 404 on the strictly-private
guide's shortcut (as for an unknown shortcut) and 403 on its export. -/
theorem C2_deny_signal_by_path_witness :
    get_by_shortcut demoStore demoOther demoPrivate.shortcut = .notFound ∧
    (∀ sc, demoStore.find? (fun h => h.shortcut == sc) = none →
        get_by_shortcut demoStore demoOther sc = .notFound) ∧
    (get_by_shortcut demoStore demoOther demoPrivate.shortcut).status = 404 ∧
    export_guide demoStore demoOther demoPrivate.id = .forbidden ∧
    (export_guide demoStore demoOther demoPrivate.id).status = 403 :=
  C2_deny_signal_by_path demoStore demoOther demoPrivate
    (by decide) (by decide) (by decide) (by decide) (by decide)

/-- C3: redeeming an active share token adds the claimant's email to the
guide's sharing list (200) without duplicating it, and a second redemption
by the same claimant errors not, changes nothing and returns the same
sharing state. -/
theorem C3_redeem_idempotent (store : Store) (u : User) (g : Guide) (tok : String)
    (hnd : (store.map Guide.id).Nodup)
    (hf : store.find? (fun h => h.share_token == some tok) = some g) :
    (redeem_share_token store u tok).2.status = 200 ∧
    (∃ g2, (redeem_share_token store u tok).2 = .ok g2 ∧
        u.email ∈ g2.shared_emails ∧
        (g.shared_emails.Nodup → g2.shared_emails.Nodup)) ∧
    redeem_share_token (redeem_share_token store u tok).1 u tok =
      redeem_share_token store u tok := by
  have hpg : (g.share_token == some tok) = true := by
    have h := List.find?_some hf
    exact h
  have h1 : redeem_share_token store u tok =
      (setGuide store { g with shared_emails := addEmail g.shared_emails u.email },
        .ok { g with shared_emails := addEmail g.shared_emails u.email }) := by
    simp [redeem_share_token, hf]
  have hfind2 : (setGuide store
        { g with shared_emails := addEmail g.shared_emails u.email }).find?
      (fun h => h.share_token == some tok) =
      some { g with shared_emails := addEmail g.shared_emails u.email } :=
    find?_setGuide hnd hf rfl (by exact hpg)
  have hmem2 : u.email ∈ addEmail g.shared_emails u.email := mem_addEmail_self _ _
  have hg3 : ({ g with shared_emails := addEmail (addEmail g.shared_emails u.email) u.email } : Guide) =
      { g with shared_emails := addEmail g.shared_emails u.email } := by
    rw [addEmail_of_mem hmem2]
  have h2 : redeem_share_token
      (setGuide store { g with shared_emails := addEmail g.shared_emails u.email }) u tok =
      (setGuide store { g with shared_emails := addEmail g.shared_emails u.email },
        .ok { g with shared_emails := addEmail g.shared_emails u.email }) := by
    simp only [redeem_share_token, hfind2]
    rw [hg3, setGuide_setGuide]
  refine ⟨by rw [h1]; rfl, ?_, ?_⟩
  · rw [h1]
    exact ⟨_, rfl, hmem2, fun h => addEmail_nodup h⟩
  · rw [h1, h2]

/-- C3 witness: the demo claimant redeems the demo link guide's token; the
email is added once and the second redemption returns the same state. -/
theorem C3_redeem_idempotent_witness :
    (redeem_share_token demoLinkStore demoClaimant "tokT").2.status = 200 ∧
    (∃ g2, (redeem_share_token demoLinkStore demoClaimant "tokT").2 = .ok g2 ∧
        demoClaimant.email ∈ g2.shared_emails ∧
        (demoLinkGuide.shared_emails.Nodup → g2.shared_emails.Nodup)) ∧
    redeem_share_token (redeem_share_token demoLinkStore demoClaimant "tokT").1
        demoClaimant "tokT" =
      redeem_share_token demoLinkStore demoClaimant "tokT" :=
  C3_redeem_idempotent demoLinkStore demoClaimant demoLinkGuide "tokT"
    (by decide) (by decide)

/-- C4: redeeming a token string that is no guide's active share token fails
with the not-found signal (404) and changes nothing, for every authenticated
caller. -/
theorem C4_unknown_token_not_found (store : Store) (u : User) (tok : String)
    (h : ∀ g ∈ store, g.share_token ≠ some tok) :
    redeem_share_token store u tok = (store, .notFound) ∧
    (redeem_share_token store u tok).2.status = 404 := by
  have hf : store.find? (fun g => g.share_token == some tok) = none := by
    refine List.find?_eq_none.2 ?_
    intro g hg
    simp [h g hg]
  constructor
  · simp [redeem_share_token, hf]
  · simp [redeem_share_token, hf, GuideResp.status]

/-- C4 witness: redeeming the string `invalid_token` against the demo store
returns 404 and leaves the store unchanged. -/
theorem C4_unknown_token_not_found_witness :
    redeem_share_token demoStore demoClaimant "invalid_token" =
      (demoStore, .notFound) ∧
    (redeem_share_token demoStore demoClaimant "invalid_token").2.status = 404 :=
  C4_unknown_token_not_found demoStore demoClaimant "invalid_token" (by decide)

/-- C5: a user's listing is exactly the guides they own, the guides whose
`shared_emails` contains their email, and the public guides, with no
duplicates; a private guide not shared with the user and not owned by them
is absent. -/
theorem C5_listing_exact (store : Store) (u : User) :
    (∀ g, g ∈ list_for_user store u ↔
        g ∈ store ∧
          (g.user_id = u.id ∨ u.email ∈ g.shared_emails ∨ g.is_public = true)) ∧
    (store.Nodup → (list_for_user store u).Nodup) ∧
    ∀ g ∈ store, g.is_public = false → u.email ∉ g.shared_emails →
      g.user_id ≠ u.id → g ∉ list_for_user store u := by
  refine ⟨fun g => mem_list_for_user, fun h => h.filter _, ?_⟩
  intro g _ hpub hsh hown hmem
  rcases mem_list_for_user.1 hmem with ⟨-, h1 | h2 | h3⟩
  · exact hown h1
  · exact hsh h2
  · rw [hpub] at h3
    cases h3

/-- C5 witness: in the demo store, the shared demo user's listing contains
the guide shared with them and omits the strictly-private one. -/
theorem C5_listing_exact_witness :
    demoGuide ∈ list_for_user demoStore demoShared ∧
    demoPrivate ∉ list_for_user demoStore demoShared := by
  constructor
  · exact ((C5_listing_exact demoStore demoShared).1 demoGuide).2
      ⟨by decide, Or.inr (Or.inl (by decide))⟩
  · exact (C5_listing_exact demoStore demoShared).2.2 demoPrivate
      (by decide) (by decide) (by decide) (by decide)

/-- C6: an owner update adding an email to `shared_emails` succeeds and the
guide then appears in that user's listing; a non-owner's attempt to change
`shared_emails` (for instance to remove an email) is forbidden. -/
theorem C6_sharing_monotone (store : Store) (owner viewer nonowner : User)
    (g : Guide) (es es2 : List String)
    (hfind : findGuide store g.id = some g)
    (hown : owner.id = g.user_id)
    (hmem : viewer.email ∈ es)
    (hnot : nonowner.id ≠ g.user_id) :
    (∃ g2, (update_guide store owner g.id { shared_emails := some es }).2 = .ok g2 ∧
        g2.shared_emails = es ∧
        g2 ∈ list_for_user
          (update_guide store owner g.id { shared_emails := some es }).1 viewer) ∧
    (update_guide store nonowner g.id { shared_emails := some es2 }).2 =
      .forbidden := by
  have hauth : authorize owner g .update_sharing = true := by
    simp [authorize, hown]
  have hauth2 : authorize nonowner g .update_sharing = false := by
    simp [authorize, hnot]
  have h1 : update_guide store owner g.id { shared_emails := some es } =
      (setGuide store (applyUpdate g { shared_emails := some es }),
        .ok (applyUpdate g { shared_emails := some es })) := by
    simp [update_guide, hfind, GuideUpdate.touchesSharing, hauth]
  refine ⟨?_, by simp [update_guide, hfind, GuideUpdate.touchesSharing, hauth2]⟩
  rw [h1]
  refine ⟨applyUpdate g { shared_emails := some es }, rfl, rfl, ?_⟩
  refine mem_list_for_user.2 ⟨?_, Or.inr (Or.inl ?_)⟩
  · exact mem_setGuide_of_mem (List.mem_of_find?_eq_some hfind) rfl
  · exact hmem

/-- C6 witness: the owner shares the strictly-private demo guide with the
shared demo user, who then sees it in their listing; the unrelated demo user
cannot clear the sharing list. -/
theorem C6_sharing_monotone_witness :
    (∃ g2, (update_guide demoStore demoOwner demoPrivate.id
        { shared_emails := some ["shared2@example.com"] }).2 = .ok g2 ∧
        g2.shared_emails = ["shared2@example.com"] ∧
        g2 ∈ list_for_user (update_guide demoStore demoOwner demoPrivate.id
          { shared_emails := some ["shared2@example.com"] }).1 demoShared) ∧
    (update_guide demoStore demoOther demoPrivate.id
        { shared_emails := some [] }).2 = .forbidden :=
  C6_sharing_monotone demoStore demoOwner demoShared demoOther demoPrivate
    ["shared2@example.com"] [] (by decide) (by decide) (by decide) (by decide)

/-- C7: share-token issuance succeeds exactly for the owner (every other
caller is denied); on success the returned token is the non-null string now
stored as the guide's single active `share_token`, replacing any prior
token. -/
theorem C7_issue_token_owner_only (store : Store) (u : User) (g : Guide)
    (tok : String)
    (hnd : (store.map Guide.id).Nodup)
    (hfind : findGuide store g.id = some g) :
    ((issue_share_token store u g.id tok).2 = .ok tok ↔ u.id = g.user_id) ∧
    (u.id ≠ g.user_id →
      (issue_share_token store u g.id tok).2 = .forbidden ∧
        (issue_share_token store u g.id tok).1 = store) ∧
    (u.id = g.user_id →
      findGuide (issue_share_token store u g.id tok).1 g.id =
        some { g with share_token := some tok }) := by
  by_cases hown : u.id = g.user_id
  · have hauth : authorize u g .update_sharing = true := by
      simp [authorize, hown]
    have h1 : issue_share_token store u g.id tok =
        (setGuide store { g with share_token := some tok }, .ok tok) := by
      simp [issue_share_token, hfind, hauth]
    refine ⟨by simp [h1, hown], fun hc => absurd hown hc, fun _ => ?_⟩
    rw [h1]
    have hpg : ((fun h => h.id == g.id) ({ g with share_token := some tok } : Guide)) = true := by
      simp
    exact find?_setGuide hnd hfind rfl hpg
  · have hauth : authorize u g .update_sharing = false := by
      simp [authorize, hown]
    have h1 : issue_share_token store u g.id tok = (store, .forbidden) := by
      simp [issue_share_token, hfind, hauth]
    refine ⟨?_, fun _ => by simp [h1], fun hc => absurd hc hown⟩
    rw [h1]
    simp [hown]

/-- C7 witness: the owner obtains the token `tokNew` for the demo link guide
and it replaces the prior active token; the claimant is denied issuance. -/
theorem C7_issue_token_owner_only_witness :
    (((issue_share_token demoLinkStore demoOwner demoLinkGuide.id "tokNew").2 =
        .ok "tokNew" ↔ demoOwner.id = demoLinkGuide.user_id) ∧
      (demoOwner.id ≠ demoLinkGuide.user_id →
        (issue_share_token demoLinkStore demoOwner demoLinkGuide.id "tokNew").2 =
            .forbidden ∧
          (issue_share_token demoLinkStore demoOwner demoLinkGuide.id "tokNew").1 =
            demoLinkStore) ∧
      (demoOwner.id = demoLinkGuide.user_id →
        findGuide (issue_share_token demoLinkStore demoOwner demoLinkGuide.id
            "tokNew").1 demoLinkGuide.id =
          some { demoLinkGuide with share_token := some "tokNew" })) ∧
    ((issue_share_token demoLinkStore demoClaimant demoLinkGuide.id "tokNew").2 =
        .ok "tokNew" ↔ demoClaimant.id = demoLinkGuide.user_id) :=
  ⟨C7_issue_token_owner_only demoLinkStore demoOwner demoLinkGuide "tokNew"
      (by decide) (by decide),
    (C7_issue_token_owner_only demoLinkStore demoClaimant demoLinkGuide "tokNew"
      (by decide) (by decide)).1⟩

/-- C8 counterexample: the claim says the `GuideCreate` and `Guide` schemas
declare only `name`, `shortcut`, `description` and `steps`, but the `Guide`
response schema also declares `id`. -/
theorem C8_counterexample :
    "id" ∈ guideRespFields ∧
    "id" ∉ (["name", "shortcut", "description", "steps"] : List String) := by
  decide

/-- C8 (amended): the create-guide operation accepts `is_public` and
`shared_emails` in its payload and applies them, so a guide created with a
shared email is immediately visible to that user via listing and shortcut
search; yet neither schema declares a sharing field — `GuideCreate` declares
only name, shortcut, description and steps, and `Guide` only id, name,
shortcut, description and steps. -/
theorem C8_create_applies_sharing (store : Store) (owner u : User)
    (p : GuideCreatePayload) (newId : Nat)
    (hmem : u.email ∈ p.shared_emails)
    (hsteps : ∀ s ∈ p.steps, s.instruction.isSome = true)
    (hsc : ∀ g ∈ store, g.shortcut ≠ p.shortcut) :
    ((create_guide store owner p newId).2 = .created (buildGuide owner p newId) ∧
      (create_guide store owner p newId).2.status = 201 ∧
      (buildGuide owner p newId).is_public = p.is_public ∧
      (buildGuide owner p newId).shared_emails = p.shared_emails ∧
      buildGuide owner p newId ∈
        list_for_user (create_guide store owner p newId).1 u ∧
      get_by_shortcut (create_guide store owner p newId).1 u p.shortcut =
        .ok (buildGuide owner p newId)) ∧
    guideCreateFields = ["name", "shortcut", "description", "steps"] ∧
    guideRespFields = ["id", "name", "shortcut", "description", "steps"] ∧
    "is_public" ∉ guideCreateFields ∧ "shared_emails" ∉ guideCreateFields ∧
    "is_public" ∉ guideRespFields ∧ "shared_emails" ∉ guideRespFields := by
  have hv : p.steps.any (fun s => s.instruction.isNone) = false := by
    rw [List.any_eq_false]
    intro s hs
    simp [Option.isNone, hsteps s hs]
    cases hi : s.instruction with
    | none => have := hsteps s hs; rw [hi] at this; cases this
    | some v => simp
  have hu : store.any (fun g => g.shortcut == p.shortcut) = false := by
    rw [List.any_eq_false]
    intro g hg
    simp [hsc g hg]
  have h1 : create_guide store owner p newId =
      (store ++ [buildGuide owner p newId], .created (buildGuide owner p newId)) := by
    simp [create_guide, hv, hu]
  have hmemg : buildGuide owner p newId ∈ store ++ [buildGuide owner p newId] :=
    List.mem_append_right _ (List.mem_singleton.2 rfl)
  have hread : authorize u (buildGuide owner p newId) .read = true := by
    by_cases h : u.id = (buildGuide owner p newId).user_id <;>
      simp [authorize, h, buildGuide, hmem]
  have hfnone : store.find? (fun h => h.shortcut == p.shortcut) = none := by
    refine List.find?_eq_none.2 ?_
    intro g hg
    simp [hsc g hg]
  have hfapp : (store ++ [buildGuide owner p newId]).find?
      (fun h => h.shortcut == p.shortcut) = some (buildGuide owner p newId) := by
    rw [List.find?_append, hfnone]
    simp [buildGuide]
  refine ⟨⟨by rw [h1], by rw [h1]; rfl, rfl, rfl, ?_, ?_⟩,
    rfl, rfl, by decide, by decide, by decide, by decide⟩
  · rw [h1]
    exact mem_list_for_user.2 ⟨hmemg, Or.inr (Or.inl hmem)⟩
  · rw [h1]
    simp only [get_by_shortcut, hfapp, hread, if_pos]

/-- C8 witness: creating a guide shared with the shared demo user makes it
visible to them via listing and shortcut search, while neither schema
declares the sharing fields. -/
theorem C8_create_applies_sharing_witness :
    (((create_guide [] demoOwner demoCreatePayload 1).2 =
        .created (buildGuide demoOwner demoCreatePayload 1) ∧
      (create_guide [] demoOwner demoCreatePayload 1).2.status = 201 ∧
      (buildGuide demoOwner demoCreatePayload 1).is_public =
        demoCreatePayload.is_public ∧
      (buildGuide demoOwner demoCreatePayload 1).shared_emails =
        demoCreatePayload.shared_emails ∧
      buildGuide demoOwner demoCreatePayload 1 ∈
        list_for_user (create_guide [] demoOwner demoCreatePayload 1).1 demoShared ∧
      get_by_shortcut (create_guide [] demoOwner demoCreatePayload 1).1 demoShared
          demoCreatePayload.shortcut =
        .ok (buildGuide demoOwner demoCreatePayload 1)) ∧
    guideCreateFields = ["name", "shortcut", "description", "steps"] ∧
    guideRespFields = ["id", "name", "shortcut", "description", "steps"] ∧
    "is_public" ∉ guideCreateFields ∧ "shared_emails" ∉ guideCreateFields ∧
    "is_public" ∉ guideRespFields ∧ "shared_emails" ∉ guideRespFields) :=
  C8_create_applies_sharing [] demoOwner demoShared demoCreatePayload 1
    (by decide) (by decide) (by decide)

/-- C9: the `StepCreate` schema marks `instruction` optional with default
`None` (an empty object validates to it), yet the creation operation rejects
a guide payload containing a step without an instruction; and the `Step`
response schema carries `instruction` as a required string — a serialized
step's `instruction` field is always a string, never null. -/
theorem C9_instruction_required (store : Store) (owner : User)
    (p : GuideCreatePayload) (newId : Nat) (sc : StepCreate)
    (hmem : sc ∈ p.steps) (hnone : sc.instruction = none) :
    ({} : StepCreate).instruction = none ∧
    parseStepCreate (.obj []) = .ok {} ∧
    create_guide store owner p newId = (store, .invalid) ∧
    (create_guide store owner p newId).2.status = 422 ∧
    ∀ s : StoredStep, jsonField (serializeStep s) "instruction" =
        some (.str s.instruction) := by
  have hv : p.steps.any (fun s => s.instruction.isNone) = true :=
    List.any_eq_true.2 ⟨sc, hmem, by simp [hnone]⟩
  have h1 : create_guide store owner p newId = (store, .invalid) := by
    simp [create_guide, hv]
  exact ⟨rfl, rfl, h1, by rw [h1]; rfl, fun s => rfl⟩

/-- C9 witness: the demo payload whose step lacks an instruction is rejected
(422) while the schema itself accepts the empty step object. -/
theorem C9_instruction_required_witness :
    ({} : StepCreate).instruction = none ∧
    parseStepCreate (.obj []) = .ok {} ∧
    create_guide [] demoOwner demoBadPayload 5 = ([], .invalid) ∧
    (create_guide [] demoOwner demoBadPayload 5).2.status = 422 ∧
    ∀ s : StoredStep, jsonField (serializeStep s) "instruction" =
        some (.str s.instruction) :=
  C9_instruction_required [] demoOwner demoBadPayload 5
    { selector := some "body" } (by decide) rfl

set_option maxHeartbeats 4000000 in
/-- C10: every one of the eight highlight fields of the `StepCreate` schema
— nested `x`, `y`, `width`, `height` and top-level `highlight_x`,
`highlight_y`, `highlight_width`, `highlight_height` — is independently
optional: a payload with any subset of them present (none, either
representation alone, or both at once) validates, absent fields reading as
`None`. -/
theorem C10_highlight_any_subset (b : Bool)
    (hx hy hw hh tx ty tw th : Option Rat) :
    parseStepCreate (.obj
      (optField "highlight"
          (if b then
            some (.obj (optField "x" (hx.map Json.num) ++
              optField "y" (hy.map Json.num) ++
              optField "width" (hw.map Json.num) ++
              optField "height" (hh.map Json.num)))
          else none) ++
        optField "highlight_x" (tx.map Json.num) ++
        optField "highlight_y" (ty.map Json.num) ++
        optField "highlight_width" (tw.map Json.num) ++
        optField "highlight_height" (th.map Json.num))) =
      .ok { highlight := if b then some (hx, hy, hw, hh) else none
            highlight_x := tx
            highlight_y := ty
            highlight_width := tw
            highlight_height := th } := by
  cases b <;> cases hx <;> cases hy <;> cases hw <;> cases hh <;>
    cases tx <;> cases ty <;> cases tw <;> cases th <;> rfl

/-- C10 witness: a payload mixing both highlight representations, each with
a strict subset of its fields present, validates with the absent fields read
as `None`. -/
theorem C10_highlight_any_subset_witness :
    parseStepCreate (.obj
      (optField "highlight"
          (if true then
            some (.obj (optField "x" ((some (1 : Rat)).map Json.num) ++
              optField "y" ((none : Option Rat).map Json.num) ++
              optField "width" ((some (2 : Rat)).map Json.num) ++
              optField "height" ((none : Option Rat).map Json.num)))
          else none) ++
        optField "highlight_x" ((some (3 : Rat)).map Json.num) ++
        optField "highlight_y" ((none : Option Rat).map Json.num) ++
        optField "highlight_width" ((none : Option Rat).map Json.num) ++
        optField "highlight_height" ((some (4 : Rat)).map Json.num))) =
      .ok { highlight := if true then some (some 1, none, some 2, none) else none
            highlight_x := some 3
            highlight_y := none
            highlight_width := none
            highlight_height := some 4 } :=
  C10_highlight_any_subset true (some 1) none (some 2) none (some 3) none none
    (some 4)

end NexAura
